import Mathlib

/-!
Shallow embedding of the configuration classes of `neural_chat/config.py`
and the abstract backend contract of `neural_chat/models/base_model.py`.

Python runtime errors raised during construction are captured by an
explicit error type; construction routines return `Except PyError _`.
The availability of the external `datasets>=2.0.0` collaborator (queried
by `require_version` in `DataTrainingArguments.__post_init__`) is a
boolean parameter of the embedding, since it is a property of the host
environment, not of this code.
-/

/-- Errors a Python constructor in this code base can raise:
`TypeError` (missing required argument at a call site), `ValueError`
(explicit `raise ValueError`), `AssertionError` (failed `assert`), and
the error `require_version` raises when the installed collaborator is
too old. -/
inductive PyError where
  | typeError (msg : String)
  | valueError (msg : String)
  | assertionError (msg : String)
  | versionError (msg : String)
deriving Repr, DecidableEq

/-- `ModelArguments` dataclass: `model_name_or_path` is a required field
(declared with `field(metadata=...)` and no default), all other fields
are defaulted. -/
structure ModelArguments where
  model_name_or_path : String
  config_name : Option String := none
  tokenizer_name : Option String := none
  cache_dir : Option String := none
  use_fast_tokenizer : Bool := true
  model_revision : String := "main"
  use_auth_token : Bool := false
deriving Repr, DecidableEq

/-- Calling the `ModelArguments` dataclass constructor. The single
required parameter is passed as `some value` or omitted (`none`); a
Python call that omits a required parameter raises `TypeError`. -/
def ModelArguments.call (model_name_or_path : Option String) :
    Except PyError ModelArguments :=
  match model_name_or_path with
  | some p => Except.ok { model_name_or_path := p }
  | none => Except.error (PyError.typeError
      "ModelArguments.__init__ missing 1 required positional argument: model_name_or_path")

/-- `DataTrainingArguments` dataclass fields with their declared defaults. -/
structure DataTrainingArguments where
  dataset_name : Option String := none
  dataset_config_name : Option String := none
  train_file : Option String := none
  validation_file : Option String := none
  max_train_samples : Option Int := none
  max_eval_samples : Option Int := none
  max_source_length : Option Int := some 512
  max_target_length : Option Int := some 256
  streaming : Bool := false
  overwrite_cache : Bool := false
  validation_split_percentage : Option Int := some 1
  preprocessing_num_workers : Option Int := none
deriving Repr, DecidableEq

/-- Python `str.split(".")` on the character list of a string: split at
every dot, keeping empty pieces, so the result is never empty (the empty
string yields `[[]]`, as `"".split(".") == [""]` in Python). -/
def splitDot : List Char → List (List Char)
  | [] => [[]]
  | c :: cs =>
      match splitDot cs with
      | [] => if c = '.' then [[], []] else [[c]]
      | h :: t => if c = '.' then [] :: h :: t else (c :: h) :: t

/-- Python `file.split(".")[-1]`: the part of the name after the last
dot (the whole string when there is no dot). -/
def fileExtension (file : String) : String :=
  String.mk ((splitDot file.toList).getLastD [])

/-- Membership test `extension in ["csv", "json", "txt"]`. -/
def validExtension (ext : String) : Bool :=
  ["csv", "json", "txt"].contains ext

/-- An optional file path whose extension fails the `assert` check
(a set path ending outside {csv, json, txt}). -/
def fileExtBad (file : Option String) : Bool :=
  match file with
  | some f => !validExtension (fileExtension f)
  | none => false

/-- `DataTrainingArguments.__post_init__`, run by the dataclass
constructor. The raise points appear in source order:
1. `require_version("datasets>=2.0.0", ...)` when `streaming`;
2. `raise ValueError` when `dataset_name`, `train_file` and
   `validation_file` are all `None`;
3. `assert` on the `train_file` extension when `train_file` is set;
4. `assert` on the `validation_file` extension when `validation_file`
   is set.
`datasetsGe2Available` says whether the installed `datasets` package
satisfies `>=2.0.0`. -/
def DataTrainingArguments.post_init (datasetsGe2Available : Bool)
    (self : DataTrainingArguments) : Except PyError DataTrainingArguments :=
  if self.streaming && !datasetsGe2Available then
    Except.error (PyError.versionError
      "The streaming feature requires datasets>=2.0.0")
  else if self.dataset_name.isNone && self.train_file.isNone
      && self.validation_file.isNone then
    Except.error (PyError.valueError
      "Need either a dataset name or a training/validation file.")
  else if fileExtBad self.train_file then
    Except.error (PyError.assertionError
      "train_file should be a csv, a json or a txt file.")
  else if fileExtBad self.validation_file then
    Except.error (PyError.assertionError
      "validation_file should be a csv, a json or a txt file.")
  else
    Except.ok self

/-- Constructing `DataTrainingArguments(...)`: field assignment followed
by `__post_init__`. -/
def DataTrainingArguments.call (datasetsGe2Available : Bool)
    (self : DataTrainingArguments) : Except PyError DataTrainingArguments :=
  DataTrainingArguments.post_init datasetsGe2Available self

/-- A supplied data source that passes every file check: at least one of
`dataset_name`, `train_file`, `validation_file` is set, and any set file
has a recognized extension. -/
def DataTrainingArguments.validDataSource (self : DataTrainingArguments) : Bool :=
  (self.dataset_name.isSome || self.train_file.isSome || self.validation_file.isSome)
    && !fileExtBad self.train_file && !fileExtBad self.validation_file

/-- Whether a construction outcome is a failed `assert` (the extension
check is the only `assert` in `DataTrainingArguments`). -/
def isAssertionError (r : Except PyError DataTrainingArguments) : Bool :=
  match r with
  | Except.error (PyError.assertionError _) => true
  | _ => false

/-- The default factory `lambda: ["q", "v"]` for `lora_target_modules`:
a fresh list is produced by a call of this function at each
construction. -/
def loraTargetModulesFactory : Unit → List String :=
  fun _ => ["q", "v"]

/-- `FinetuneArguments` dataclass. It declares no `__post_init__`, so a
construction only assigns the fields; nothing constrains their values.
`lora_dropout` is a Python float, embedded as a rational. -/
structure FinetuneArguments where
  lora_rank : Int := 8
  lora_alpha : Int := 32
  lora_dropout : ℚ := 1/10
  lora_target_modules : List String := loraTargetModulesFactory ()
  peft : Option String := some "lora"
deriving Repr, DecidableEq

/-- `transformers.TrainingArguments`: external collaborator, consumed
opaquely (no field of it is read by this code). -/
structure TrainingArguments where
  payload : Unit := ()
deriving Repr, DecidableEq

/-- `FinetuningConfig`: aggregate of the four argument groups. -/
structure FinetuningConfig where
  model_args : ModelArguments
  data_args : DataTrainingArguments
  training_args : TrainingArguments
  finetune_args : FinetuneArguments
deriving Repr, DecidableEq

/-- `OptimizationConfig` with its keyword defaults. The loosely typed
dict-valued fields are embedded as association lists. -/
structure OptimizationConfig where
  mode : String := "latency"
  device : String := "cpu"
  backend : String := "ipex"
  approach : String := "static"
  precision : String := "bf16"
  excluded_precisions : List String := []
  op_type_dict : Option (List (String × String)) := none
  op_name_dict : Option (List (String × String)) := none
  recipes : List (String × String) := []
deriving Repr, DecidableEq

/-- `NeuralChatConfig` fields after a successful construction. -/
structure NeuralChatConfig where
  model_name_or_path : String
  inputs : Option String
  device : String
  backend : String
  retrieval : Bool
  retrieval_type : Option String
  txt2Image : Bool
  audio_input : Bool
  audio_output : Bool
  server_mode : Bool
  finetune_config : FinetuningConfig
  optimize_config : OptimizationConfig
  use_hpu_graphs : Bool
deriving Repr, DecidableEq

/-- `NeuralChatConfig.__init__`. When `finetune_config` is `None` it
synthesizes `FinetuningConfig(model_args=ModelArguments(),
data_args=DataTrainingArguments(), training_args=TrainingArguments(),
finetune_args=FinetuneArguments())`; the keyword values are evaluated
left to right, so `ModelArguments()` runs first (with its required
parameter omitted), then `DataTrainingArguments()` (all fields at their
defaults, then `__post_init__`). When `optimize_config` is `None` it
synthesizes `OptimizationConfig()`. Any error from these nested calls
propagates out of the construction. -/
def NeuralChatConfig.call (datasetsGe2Available : Bool)
    (model_name_or_path : String) (inputs : Option String)
    (device : String) (backend : String) (retrieval : Bool)
    (retrieval_type : Option String) (txt2Image : Bool)
    (audio_input : Bool) (audio_output : Bool) (server_mode : Bool)
    (finetune_config : Option FinetuningConfig)
    (optimize_config : Option OptimizationConfig)
    (use_hpu_graphs : Bool) : Except PyError NeuralChatConfig := do
  let ft ← match finetune_config with
    | some c => Except.ok c
    | none => do
        let ma ← ModelArguments.call none
        let da ← DataTrainingArguments.call datasetsGe2Available {}
        Except.ok { model_args := ma, data_args := da,
                    training_args := {}, finetune_args := {} }
  let oc := match optimize_config with
    | some c => c
    | none => ({} : OptimizationConfig)
  Except.ok { model_name_or_path := model_name_or_path, inputs := inputs,
              device := device, backend := backend, retrieval := retrieval,
              retrieval_type := retrieval_type, txt2Image := txt2Image,
              audio_input := audio_input, audio_output := audio_output,
              server_mode := server_mode, finetune_config := ft,
              optimize_config := oc, use_hpu_graphs := use_hpu_graphs }

/-- `NeuralChatConfig()`: every keyword at its declared default. -/
def NeuralChatConfig.defaultCall (datasetsGe2Available : Bool) :
    Except PyError NeuralChatConfig :=
  NeuralChatConfig.call datasetsGe2Available "meta-llama/Llama-2-70b-hf"
    none "auto" "auto" false none false false false true none none false

/-- A concrete `BaseModel` subclass for the embedding: it supplies an
implementation of `init_model`. `init_model_arity` is the number of
parameters after `self` in the declared implementation (the abstract
declaration `def init_model(self, config)` has one); `init_model_impl`
is the body, fed the positional arguments of the call. -/
structure BaseModelSubclass (Config Model Tokenizer : Type) where
  init_model_arity : Nat
  init_model_impl : List Config → Model × Tokenizer

/-- A constructed backend instance: the model and tokenizer handles
assigned by `__init__` for the object's lifetime. -/
structure BaseModelInstance (Model Tokenizer : Type) where
  model : Model
  tokenizer : Tokenizer

/-- Python call semantics for a method whose implementation declares
`arity` parameters after `self`: a call whose positional argument count
differs raises `TypeError` without running the body. -/
def pythonCall {Config A : Type} (arity : Nat)
    (impl : List Config → A) (args : List Config) : Except PyError A :=
  if args.length = arity then Except.ok (impl args)
  else Except.error (PyError.typeError
    "init_model missing 1 required positional argument: config")

/-- `BaseModel.__init__`: the single statement
`self.model, self.tokenizer = self.init_model()` — one call of
`init_model` with zero (non-self) arguments, whose pair of results is
stored in the new instance. -/
def BaseModel.construct {Config Model Tokenizer : Type}
    (S : BaseModelSubclass Config Model Tokenizer) :
    Except PyError (BaseModelInstance Model Tokenizer) :=
  match pythonCall S.init_model_arity S.init_model_impl [] with
  | Except.ok mt => Except.ok { model := mt.1, tokenizer := mt.2 }
  | Except.error e => Except.error e

/-- `BaseModel.match`: the default implementation ignores `self` and
`model_path` and returns `True`. -/
def BaseModel.matchDefault {Model Tokenizer : Type}
    (self : BaseModelInstance Model Tokenizer) (model_path : String) : Bool :=
  true

/-- `BaseModel.get_default_conv_template`: delegates to the external
conversation-template registry `get_conv_template` with the fixed name
"one_shot", ignoring `model_path`. The registry is a parameter of the
embedding. -/
def BaseModel.get_default_conv_template {Conversation : Type}
    (get_conv_template : String → Conversation) (model_path : String) :
    Conversation :=
  get_conv_template "one_shot"

/-- Helper: a file that fails the extension check is in particular set. -/
theorem fileExtBad_not_none {f : Option String} (h : fileExtBad f = true) :
    f.isNone = false := by
  cases f <;> simp_all [fileExtBad]

/-- Helper: when some data source is supplied, the all-`None` test of
`__post_init__` is false. -/
theorem sourceCheckFalse {dta : DataTrainingArguments}
    (h : (dta.dataset_name.isSome || dta.train_file.isSome
        || dta.validation_file.isSome) = true) :
    (dta.dataset_name.isNone && dta.train_file.isNone
        && dta.validation_file.isNone) = false := by
  cases hd : dta.dataset_name <;> cases ht : dta.train_file <;>
    cases hv : dta.validation_file <;> simp_all

/-- C7: `FinetuneArguments()` with no overrides yields `lora_rank = 8`,
`lora_alpha = 32`, `lora_target_modules` produced by the default factory
(which returns `["q", "v"]`), and `peft = "lora"`. -/
theorem finetuneArguments_defaults :
    ({} : FinetuneArguments).lora_rank = 8
    ∧ ({} : FinetuneArguments).lora_alpha = 32
    ∧ ({} : FinetuneArguments).lora_target_modules = loraTargetModulesFactory ()
    ∧ loraTargetModulesFactory () = ["q", "v"]
    ∧ ({} : FinetuneArguments).peft = some "lora" :=
  ⟨rfl, rfl, rfl, rfl, rfl⟩

/-- C8: the default `BaseModel.match` returns `True` on every instance
and every input string. -/
theorem baseModel_match_always_true {Model Tokenizer : Type}
    (self : BaseModelInstance Model Tokenizer) (model_path : String) :
    BaseModel.matchDefault self model_path = true := rfl

/-- C9: the default `BaseModel.get_default_conv_template` returns
exactly what the external registry yields for the fixed name
"one_shot", whatever the input path. -/
theorem baseModel_get_default_conv_template_one_shot {Conversation : Type}
    (get_conv_template : String → Conversation) (model_path : String) :
    BaseModel.get_default_conv_template get_conv_template model_path
      = get_conv_template "one_shot" := rfl

/-- C6 counterexample: `FinetuneArguments` enforces no range on
`lora_dropout`; the construction with `lora_dropout = 2` succeeds and
its field lies outside `[0, 1)`, refuting the claimed invariant over all
successfully constructed values. -/
theorem finetuneArguments_lora_dropout_unbounded :
    ¬ ∀ fa : FinetuneArguments, 0 ≤ fa.lora_dropout ∧ fa.lora_dropout < 1 :=
  fun h => absurd (h { lora_dropout := 2 }).2 (by norm_num)

/-- C6 amended: the code validates nothing here, but the declared
default is in range: `FinetuneArguments()` yields
`lora_dropout = 0.1 ∈ [0, 1)`. -/
theorem finetuneArguments_default_lora_dropout_in_range :
    ({} : FinetuneArguments).lora_dropout = 1/10
    ∧ 0 ≤ ({} : FinetuneArguments).lora_dropout
    ∧ ({} : FinetuneArguments).lora_dropout < 1 := by
  refine ⟨rfl, ?_, ?_⟩
  · show (0 : ℚ) ≤ 1/10
    norm_num
  · show (1/10 : ℚ) < 1
    norm_num

/-- C1: `NeuralChatConfig()` with `finetune_config` and
`optimize_config` omitted never succeeds: the synthesized default
`FinetuningConfig` evaluates `ModelArguments()` first, which raises
`TypeError` because `model_name_or_path` has no default, in every
environment. -/
theorem neuralChatConfig_default_construction_raises
    (datasetsGe2Available : Bool) :
    NeuralChatConfig.defaultCall datasetsGe2Available
      = Except.error (PyError.typeError
          "ModelArguments.__init__ missing 1 required positional argument: model_name_or_path") :=
  rfl

/-- C2: for every `BaseModel` subclass whose `init_model` keeps the
declared signature (one `config` parameter after `self`), construction
fails: `__init__` calls `self.init_model()` with zero arguments, so the
call raises `TypeError` and no instance is produced. -/
theorem baseModel_construct_declared_arity_raises
    {Config Model Tokenizer : Type}
    (S : BaseModelSubclass Config Model Tokenizer)
    (h : S.init_model_arity = 1) :
    BaseModel.construct S
      = Except.error (PyError.typeError
          "init_model missing 1 required positional argument: config") := by
  unfold BaseModel.construct pythonCall
  rw [h]
  simp

/-- Witness for C2 at a concrete subclass returning `(0, 0)`. -/
theorem baseModel_construct_declared_arity_raises_witness :
    BaseModel.construct
        (⟨1, fun _ => ((0 : Nat), (0 : Nat))⟩ : BaseModelSubclass Unit Nat Nat)
      = Except.error (PyError.typeError
          "init_model missing 1 required positional argument: config") :=
  baseModel_construct_declared_arity_raises
    (⟨1, fun _ => ((0 : Nat), (0 : Nat))⟩ : BaseModelSubclass Unit Nat Nat) rfl

/-- C3: with `dataset_name`, `train_file` and `validation_file` all
unset, and the streaming gate passed (streaming off, or the required
`datasets` version available), construction raises the
missing-data-source `ValueError`. -/
theorem dataTrainingArguments_missing_source_valueError
    (avail : Bool) (dta : DataTrainingArguments)
    (h1 : dta.dataset_name = none) (h2 : dta.train_file = none)
    (h3 : dta.validation_file = none)
    (h4 : dta.streaming = false ∨ avail = true) :
    DataTrainingArguments.call avail dta
      = Except.error (PyError.valueError
          "Need either a dataset name or a training/validation file.") := by
  unfold DataTrainingArguments.call DataTrainingArguments.post_init
  rcases h4 with h4 | h4 <;> simp [h1, h2, h3, h4]

/-- Witness for C3: `DataTrainingArguments()` with every field at its
default, in an environment with `datasets>=2.0.0` available. -/
theorem dataTrainingArguments_missing_source_valueError_witness :
    DataTrainingArguments.call true ({} : DataTrainingArguments)
      = Except.error (PyError.valueError
          "Need either a dataset name or a training/validation file.") :=
  dataTrainingArguments_missing_source_valueError true {} rfl rfl rfl (Or.inr rfl)

/-- C10: the streaming capability check runs before the data-source
check: with `streaming = True`, the required version unavailable, and
all three sources unset, construction raises the version-requirement
error, and the missing-data-source `ValueError` is never raised. -/
theorem dataTrainingArguments_streaming_check_precedes_source_check
    (dta : DataTrainingArguments)
    (h0 : dta.streaming = true)
    (h1 : dta.dataset_name = none) (h2 : dta.train_file = none)
    (h3 : dta.validation_file = none) :
    DataTrainingArguments.call false dta
      = Except.error (PyError.versionError
          "The streaming feature requires datasets>=2.0.0")
    ∧ ∀ msg, DataTrainingArguments.call false dta
        ≠ Except.error (PyError.valueError msg) := by
  have he : DataTrainingArguments.call false dta
      = Except.error (PyError.versionError
          "The streaming feature requires datasets>=2.0.0") := by
    unfold DataTrainingArguments.call DataTrainingArguments.post_init
    simp [h0]
  exact ⟨he, fun msg => by simp [he]⟩

/-- Witness for C10: `DataTrainingArguments(streaming=True)` with no
data source and `datasets>=2.0.0` unavailable. -/
theorem dataTrainingArguments_streaming_check_precedes_source_check_witness :
    DataTrainingArguments.call false
        ({ streaming := true } : DataTrainingArguments)
      = Except.error (PyError.versionError
          "The streaming feature requires datasets>=2.0.0") :=
  (dataTrainingArguments_streaming_check_precedes_source_check
    { streaming := true } rfl rfl rfl rfl).1

/-- C5: with `streaming = True` and a valid data source, construction
succeeds exactly when `datasets>=2.0.0` is available, and otherwise
raises the version-requirement error. -/
theorem dataTrainingArguments_streaming_version_gate
    (avail : Bool) (dta : DataTrainingArguments)
    (hs : dta.streaming = true)
    (hv : dta.validDataSource = true) :
    (avail = true → DataTrainingArguments.call avail dta = Except.ok dta)
    ∧ (avail = false → DataTrainingArguments.call avail dta
        = Except.error (PyError.versionError
            "The streaming feature requires datasets>=2.0.0")) := by
  unfold DataTrainingArguments.validDataSource at hv
  rw [Bool.and_eq_true, Bool.and_eq_true] at hv
  obtain ⟨⟨hsrc, ht⟩, hvf⟩ := hv
  rw [Bool.not_eq_true'] at ht hvf
  have h2 := sourceCheckFalse hsrc
  constructor
  · intro ha
    subst ha
    unfold DataTrainingArguments.call DataTrainingArguments.post_init
    simp [hs, h2, ht, hvf]
  · intro ha
    subst ha
    unfold DataTrainingArguments.call DataTrainingArguments.post_init
    simp [hs]

/-- Witness for C5: `DataTrainingArguments(train_file="a.csv",
streaming=True)` succeeds with `datasets>=2.0.0` available and raises
the version error without it. -/
theorem dataTrainingArguments_streaming_version_gate_witness :
    DataTrainingArguments.call true
        ({ train_file := some "a.csv", streaming := true } : DataTrainingArguments)
      = Except.ok ({ train_file := some "a.csv", streaming := true } : DataTrainingArguments)
    ∧ DataTrainingArguments.call false
        ({ train_file := some "a.csv", streaming := true } : DataTrainingArguments)
      = Except.error (PyError.versionError
          "The streaming feature requires datasets>=2.0.0") :=
  ⟨(dataTrainingArguments_streaming_version_gate true
      { train_file := some "a.csv", streaming := true } rfl (by decide)).1 rfl,
   (dataTrainingArguments_streaming_version_gate false
      { train_file := some "a.csv", streaming := true } rfl (by decide)).2 rfl⟩

/-- C4 counterexample: a construction with a bad `train_file` extension
(`data.parquet`) but `streaming = True` in an environment missing
`datasets>=2.0.0` fails with the version-requirement error, not with an
`AssertionError`, refuting the claim as stated over all constructions. -/
theorem dataTrainingArguments_badExt_not_always_assertion :
    fileExtBad (some "data.parquet") = true
    ∧ isAssertionError (DataTrainingArguments.call false
        ({ streaming := true, train_file := some "data.parquet" }
          : DataTrainingArguments)) = false
    ∧ DataTrainingArguments.call false
        ({ streaming := true, train_file := some "data.parquet" }
          : DataTrainingArguments)
      = Except.error (PyError.versionError
          "The streaming feature requires datasets>=2.0.0") :=
  ⟨by decide, by decide, rfl⟩

/-- C4 amended: provided the streaming gate does not fire first
(streaming off, or the required version available), a set `train_file`
or `validation_file` with an extension outside {csv, json, txt} makes
construction fail with an `AssertionError`; and a construction whose
set files all have recognized extensions never fails the extension
check, in any environment. -/
theorem dataTrainingArguments_extension_check
    (avail : Bool) (dta : DataTrainingArguments) :
    ((dta.streaming = false ∨ avail = true) →
      (fileExtBad dta.train_file || fileExtBad dta.validation_file) = true →
      isAssertionError (DataTrainingArguments.call avail dta) = true)
    ∧ (fileExtBad dta.train_file = false →
      fileExtBad dta.validation_file = false →
      isAssertionError (DataTrainingArguments.call avail dta) = false) := by
  constructor
  · intro hstream hbad
    have h1 : (dta.streaming && !avail) = false := by
      rcases hstream with h | h <;> simp [h]
    unfold DataTrainingArguments.call DataTrainingArguments.post_init
    rw [Bool.or_eq_true] at hbad
    rcases hbad with hb | hb
    · have h2 := fileExtBad_not_none hb
      simp [h1, h2, hb, isAssertionError]
    · have h2 := fileExtBad_not_none hb
      cases hft : fileExtBad dta.train_file <;>
        simp [h1, h2, hb, hft, isAssertionError]
  · intro ht hv
    unfold DataTrainingArguments.call DataTrainingArguments.post_init
    cases h1 : (dta.streaming && !avail) <;>
      cases h2 : (dta.dataset_name.isNone && dta.train_file.isNone
          && dta.validation_file.isNone) <;>
        simp [h1, h2, ht, hv, isAssertionError]

/-- Witness for C4 amended: a bad extension (`data.parquet`) trips the
assertion when the streaming gate passes, and a csv file does not. -/
theorem dataTrainingArguments_extension_check_witness :
    isAssertionError (DataTrainingArguments.call true
        ({ train_file := some "data.parquet" } : DataTrainingArguments)) = true
    ∧ isAssertionError (DataTrainingArguments.call true
        ({ train_file := some "a.csv" } : DataTrainingArguments)) = false :=
  ⟨(dataTrainingArguments_extension_check true
      { train_file := some "data.parquet" }).1 (Or.inr rfl) (by decide),
   (dataTrainingArguments_extension_check true
      { train_file := some "a.csv" }).2 (by decide) (by decide)⟩
